import Mathlib

/-!
Verification development for the TF.js-to-TFLite conversion server
(conversion_server.py).

The server is a single-file Flask application with two handlers:

* `convert_model` (POST /convert): validates that the two required file
  parts are present, parses the optional metadata form field, stages the
  uploads in a fresh scratch directory, patches the weightsManifest paths
  of the uploaded model.json so they point at the co-located weights.bin,
  delegates to the external model loader and TFLite converter (optionally
  enabling quantization options), streams the result back, and removes the
  scratch directory in a finally block.
* `health` (GET /health): reports the detected versions of the two
  external libraries, or "not installed" when an import fails.

The embedding below is a shallow functional model of those handlers.
External effects (Python imports, json parsing, file saves, the Keras
loader, the TFLite converter, directory removal) are oracles supplied in
an `Oracles` record; exceptions are modelled with `Except String`, carrying
the exception message string. Observable side effects of a request
(scratch-directory lifecycle, the model.json contents handed to the
loader, the converter configuration) are recorded in a `Trace` returned
next to the HTTP response.
-/

namespace ConvServer

/-- JSON values, as produced by Python json.loads / json.load. Objects are
association lists in insertion order (Python dicts preserve insertion
order and json.loads never produces duplicate keys). Numbers are modelled
as integers; no behaviour of the server depends on numeric values. -/
inductive Json where
  | null : Json
  | bool : Bool → Json
  | num : Int → Json
  | str : String → Json
  | arr : List Json → Json
  | obj : List (String × Json) → Json

/-- Lookup of a key in a JSON object, Python d[k] / k in d on the
association-list representation (first occurrence wins). -/
def lookupField : List (String × Json) → String → Option Json
  | [], _ => none
  | (k2, v) :: rest, k => if k2 == k then some v else lookupField rest k

/-- Python dict item assignment d[k] = v: replaces the value at the first
occurrence of k keeping its position, or appends the pair when k is absent. -/
def setField (fields : List (String × Json)) (k : String) (v : Json) :
    List (String × Json) :=
  match fields with
  | [] => [(k, v)]
  | (k2, v2) :: rest =>
      if k2 == k then (k, v) :: rest else (k2, v2) :: setField rest k v

/-- Substring test, Python `key in s` for strings. -/
def strContains (s key : String) : Bool :=
  (s.splitOn key).length ≥ 2

/-- Python membership test `key in j` for a JSON value: key lookup for
dicts, element equality for lists (a JSON element equals a Python string
only when it is that string), substring for strings, and a TypeError for
the non-container values. Mirrors line 81 of conversion_server.py, where
model_config can be any JSON value. -/
def pyContains (j : Json) (key : String) : Except String Bool :=
  match j with
  | .obj fields => .ok (fields.any (fun p => p.1 == key))
  | .arr xs => .ok (xs.any (fun x =>
      match x with
      | .str s => s == key
      | _ => false))
  | .str s => .ok (strContains s key)
  | _ => .error "TypeError: argument is not iterable"

/-- Python `manifest[paths-key] = [weights.bin-string]` (line 83): item
assignment succeeds only on a dict; every other JSON value raises a
TypeError. -/
def setPaths (m : Json) : Except String Json :=
  match m with
  | .obj mf => .ok (.obj (setField mf "paths" (.arr [.str "weights.bin"])))
  | _ => .error "TypeError: object does not support item assignment"

/-- Loop of lines 82-83 over the manifest list: rewrite each element in
order, propagating the first exception. -/
def setPathsAll : List Json → Except String (List Json)
  | [] => .ok []
  | m :: rest =>
      match setPaths m with
      | .error e => .error e
      | .ok m2 =>
          match setPathsAll rest with
          | .error e => .error e
          | .ok rest2 => .ok (m2 :: rest2)

/-- Lines 81-86 of conversion_server.py: when the parsed model config
contains a weightsManifest key, rewrite the paths entry of every manifest
element to the single-element list containing weights.bin. Iterating a
non-list value or assigning into a non-dict element raises, modelled as
`.error` with the corresponding TypeError message. An empty string or
empty dict iterates zero times, leaving the config unchanged. -/
def patchWeightsManifest (j : Json) : Except String Json :=
  match pyContains j "weightsManifest" with
  | .error e => .error e
  | .ok false => .ok j
  | .ok true =>
      match j with
      | .obj fields =>
          match lookupField fields "weightsManifest" with
          | some (.arr ms) =>
              match setPathsAll ms with
              | .ok ms2 => .ok (.obj (setField fields "weightsManifest" (.arr ms2)))
              | .error e => .error e
          | some (.str s) =>
              if s.isEmpty then .ok j
              else .error "TypeError: object does not support item assignment"
          | some (.obj mf) =>
              if mf.isEmpty then .ok j
              else .error "TypeError: object does not support item assignment"
          | some _ => .error "TypeError: argument is not iterable"
          | none => .ok j
      | .arr _ => .error "TypeError: list indices must be integers or slices"
      | .str _ => .error "TypeError: string indices must be integers"
      | _ => .ok j

/-- Converter optimization options (tf.lite.Optimize). -/
inductive Optimize where
  | DEFAULT : Optimize
deriving DecidableEq

/-- Reduced-precision weight types (tf.float16 and friends) that can be
placed in converter.target_spec.supported_types. -/
inductive TfType where
  | float16 : TfType
  | float32 : TfType
deriving DecidableEq

/-- Observable configuration of the TFLiteConverter at the moment
converter.convert() is called: its optimizations list and its
target_spec.supported_types list. A freshly constructed converter has
both empty. -/
structure ConverterConfig where
  optimizations : List Optimize := []
  supportedTypes : List TfType := []
deriving DecidableEq

/-- HTTP response produced by a handler: either a jsonify body with an
HTTP status code, or a send_file attachment. -/
inductive Response where
  | jsonResp : Nat → List (String × Json) → Response
  | fileResp : List Nat → String → Bool → String → Response

/-- Incoming HTTP request: multipart file parts (name, content), form
fields and query arguments, each a multidict modelled as an association
list where get returns the first binding. -/
structure Request where
  files : List (String × String) := []
  form : List (String × String) := []
  args : List (String × String) := []

/-- MultiDict.get on an association list (first binding wins). -/
def dictGet : List (String × String) → String → Option String
  | [], _ => none
  | (k2, v) :: rest, k => if k2 == k then some v else dictGet rest k

/-- Python `name in request.files`. -/
def hasFile (req : Request) (name : String) : Bool :=
  req.files.any (fun p => p.1 == name)

/-- Content of a file part (the handler reads it only after checking
membership, so the default is never observable). -/
def fileContent (req : Request) (name : String) : String :=
  (dictGet req.files name).getD ""

/-- request.form.get for the handler. -/
def formGet (req : Request) (k : String) : Option String :=
  dictGet req.form k

/-- request.args.get for the handler. -/
def argsGet (req : Request) (k : String) : Option String :=
  dictGet req.args k

/-- External effects of one request, supplied as oracles. `M` is the
abstract type of in-memory Keras models returned by the external loader.
Exceptions raised by an external step are `.error` with the exception
message string (Python str(e)). -/
structure Oracles (M : Type) where
  /-- Message of the ImportError raised when importing tensorflow or
  tensorflowjs fails; `none` when both imports succeed. -/
  importError : Option String := none
  /-- Python json.loads / json.load on a string. -/
  jsonLoads : String → Except String Json
  /-- Exception raised by model_json_file.save, if any. -/
  saveJsonExn : Option String := none
  /-- Exception raised by weights_bin_file.save, if any. -/
  saveBinExn : Option String := none
  /-- tfjs.converters.load_keras_model, applied to the JSON value stored
  in the scratch model.json at call time. -/
  loadKerasModel : Json → Except String M
  /-- converter.convert() on a loaded model with the configuration the
  handler installed on the converter; returns the TFLite bytes. -/
  convert : M → ConverterConfig → Except String (List Nat)
  /-- Whether shutil.rmtree on the scratch directory raises. -/
  rmtreeRaises : Bool := false

/-- Observable side effects of one request. -/
structure Trace where
  /-- Whether tempfile.mkdtemp was reached. -/
  tmpDirCreated : Bool := false
  /-- Whether the scratch directory still exists after the finally block. -/
  tmpDirPersists : Bool := false
  /-- Whether the finally block attempted shutil.rmtree. -/
  rmtreeAttempted : Bool := false
  /-- JSON value stored in the scratch model.json at the moment
  load_keras_model is invoked on it (after the weightsManifest patch). -/
  savedModelJson : Option Json := none
  /-- Whether load_keras_model was invoked. -/
  loadAttempted : Bool := false
  /-- Configuration on the converter when convert() was invoked. -/
  converterConfig : Option ConverterConfig := none
  /-- Whether converter.convert was invoked. -/
  conversionAttempted : Bool := false

/-- Partial trace accumulated inside the try body. -/
structure BodyTrace where
  savedModelJson : Option Json := none
  loadAttempted : Bool := false
  converterConfig : Option ConverterConfig := none
  conversionAttempted : Bool := false

/-- Python str.lower (ASCII case folding suffices for the values the
handler compares). -/
def strLower (s : String) : String :=
  String.mk (s.data.map Char.toLower)

/-- Line 59 of conversion_server.py:
request.args.get with default false, lowercased, compared to true. -/
def quantizeOf (req : Request) : Bool :=
  strLower ((argsGet req "quantize").getD "false") == "true"

/-- Lines 58 and 62-65 of conversion_server.py: request.form.get with
default, then json.loads guarded by except json.JSONDecodeError, which
falls back to the empty dict. The parsed value is never used afterwards. -/
def metadataOf {M : Type} (o : Oracles M) (req : Request) : Json :=
  match o.jsonLoads ((formGet req "metadata").getD "\x7b\x7d") with
  | .ok j => j
  | .error _ => .obj []

/-- Error message of lines 45-48 of conversion_server.py for a missing
dependency. -/
def missingDepMsg (e : String) : String :=
  "Missing dependency: " ++ e ++
    ". Install with: pip install tensorflow tensorflowjs"

/-- Lines 98-105 of conversion_server.py: the configuration sitting on
the freshly built TFLiteConverter when convert() is called. The quantize
branch sets optimizations to the DEFAULT singleton and
target_spec.supported_types to the float16 singleton; otherwise both
keep their fresh-converter empty values. -/
def converterConfigFor (quantize : Bool) : ConverterConfig :=
  if quantize then
    { optimizations := [Optimize.DEFAULT]
      supportedTypes := [TfType.float16] }
  else {}

/-- Lines 72-113 of conversion_server.py, the part of the try body that
runs after the scratch directory exists: save both uploads (either save
may raise), json.load the staged model.json, patch its weightsManifest,
rewrite the file, call load_keras_model on it, build the TFLiteConverter,
set the quantization options when the flag is on, and call convert().
`.error e` means an exception with message e escaped to the except block.
The intermediate trace records what was observed even on the failing paths. -/
def tryBody {M : Type} (o : Oracles M) (content : String) (quantize : Bool) :
    Except String Response × BodyTrace :=
  match o.saveJsonExn with
  | some e => (.error e, {})
  | none =>
  match o.saveBinExn with
  | some e => (.error e, {})
  | none =>
  match o.jsonLoads content with
  | .error e => (.error e, {})
  | .ok model_config =>
  match patchWeightsManifest model_config with
  | .error e => (.error e, {})
  | .ok patched =>
      match o.loadKerasModel patched with
      | .error e =>
          (.error e, { savedModelJson := some patched, loadAttempted := true })
      | .ok model =>
          match o.convert model (converterConfigFor quantize) with
          | .error e =>
              (.error e,
               { savedModelJson := some patched
                 loadAttempted := true
                 converterConfig := some (converterConfigFor quantize)
                 conversionAttempted := true })
          | .ok tflite =>
              (.ok (.fileResp tflite "application/octet-stream" true "model.tflite"),
               { savedModelJson := some patched
                 loadAttempted := true
                 converterConfig := some (converterConfigFor quantize)
                 conversionAttempted := true })

/-- Lines 35-133 of conversion_server.py, the full POST /convert handler:
lazy dependency import (500 on ImportError), presence checks for the two
required file parts (400 each), metadata parsing with silent fallback,
scratch-directory creation, the staged body, the generic except clause
turning any escaped exception into a 500 with the exception message, and
the finally block that best-effort-removes the scratch directory,
swallowing removal errors. -/
def convert_model {M : Type} (o : Oracles M) (req : Request) :
    Response × Trace :=
  match o.importError with
  | some e => (.jsonResp 500 [("error", .str (missingDepMsg e))], {})
  | none =>
      if hasFile req "model_json" = false then
        (.jsonResp 400 [("error", .str "Missing model_json file")], {})
      else if hasFile req "weights_bin" = false then
        (.jsonResp 400 [("error", .str "Missing weights_bin file")], {})
      else
        let quantize := quantizeOf req
        let _metadata := metadataOf o req
        let body := tryBody o (fileContent req "model_json") quantize
        let resp : Response :=
          match body.1 with
          | .ok r => r
          | .error e => .jsonResp 500 [("error", .str e)]
        (resp,
         { tmpDirCreated := true
           tmpDirPersists := o.rmtreeRaises
           rmtreeAttempted := true
           savedModelJson := body.2.savedModelJson
           loadAttempted := body.2.loadAttempted
           converterConfig := body.2.converterConfig
           conversionAttempted := body.2.conversionAttempted })

/-- Import outcomes observed by the health endpoint: the detected version
string of each library, or `none` when the import raises ImportError. -/
structure HealthEnv where
  tfVersion : Option String := none
  tfjsVersion : Option String := none

/-- Lines 136-150 of conversion_server.py, the GET /health handler: a
status dict seeded with ok, extended with the tensorflow and
tensorflowjs versions or the not-installed marker, each import guarded by
its own try/except so a missing dependency never fails the check. -/
def health (env : HealthEnv) : Response :=
  let status : List (String × Json) :=
    [("status", .str "ok"), ("server", .str "tfjs-to-tflite-converter")]
  let status :=
    match env.tfVersion with
    | some v => setField status "tensorflow" (.str v)
    | none => setField status "tensorflow" (.str "not installed")
  let status :=
    match env.tfjsVersion with
    | some v => setField status "tensorflowjs" (.str v)
    | none => setField status "tensorflowjs" (.str "not installed")
  .jsonResp 200 status

/-! Concrete fixtures used by the witness theorems. -/

/-- Shape of one manifest element after the paths rewrite: the
statement-side companion of setPaths, which succeeds exactly on objects
and there returns this value. -/
def patchOne (m : Json) : Json :=
  match m with
  | .obj mf => .obj (setField mf "paths" (.arr [.str "weights.bin"]))
  | m => m

/-- Manifest entries of the sample uploaded model.json. -/
def sampleManifests : List Json :=
  [.obj [("paths", .arr [.str "group1-shard1of2.bin",
                         .str "group1-shard2of2.bin"])],
   .obj [("paths", .arr [.str "group2-shard1of1.bin"]),
         ("dtype", .str "float32")]]

/-- Top-level fields of the sample uploaded model.json. -/
def sampleFields : List (String × Json) :=
  [("modelTopology", .obj [("keras_version", .str "2.11.0")]),
   ("weightsManifest", .arr sampleManifests)]

/-- Parsed form of the sample uploaded model.json. -/
def sampleModelJson : Json :=
  .obj sampleFields

/-- Concrete oracle set for witnesses: both imports succeed, the sample
model text parses to sampleModelJson, the empty-object string parses to
the empty object, everything else is a JSON decode error; loading and
conversion succeed. -/
def oracleBase : Oracles Nat where
  jsonLoads := fun s =>
    if s == "SAMPLEMODEL" then .ok sampleModelJson
    else if s == "\x7b\x7d" then .ok (.obj [])
    else .error "Expecting value: line 1 column 1 (char 0)"
  loadKerasModel := fun _ => .ok 0
  convert := fun _ _ => .ok [0, 1, 2, 3]

/-- Sample well-formed request with malformed metadata and the quantize
flag spelled with a capital letter. -/
def sampleReq : Request where
  files := [("model_json", "SAMPLEMODEL"), ("weights_bin", "BINARY")]
  form := [("metadata", "not-json")]
  args := [("quantize", "True")]

/-- Sample request missing the model_json part. -/
def reqNoJson : Request where
  files := [("weights_bin", "BINARY")]

/-- Sample request missing the weights_bin part. -/
def reqNoBin : Request where
  files := [("model_json", "SAMPLEMODEL")]

/-! Claim theorems. -/

/-- C10: while tensorflow or tensorflowjs cannot be imported, every POST
to /convert answers 500 with the missing-dependency message, regardless
of the uploaded parts, and never a 400 missing-upload response. -/
theorem convert_model_missing_dependency {M : Type} (o : Oracles M)
    (req : Request) (e : String) (h : o.importError = some e) :
    convert_model o req
      = (.jsonResp 500 [("error", .str (missingDepMsg e))], {})
    ∧ ∀ body, (convert_model o req).1 ≠ Response.jsonResp 400 body := by
  refine ⟨by simp [convert_model, h], ?_⟩
  intro body
  simp [convert_model, h]

/-- Witness for C10 at a concrete oracle and a request that also omits
both uploads. -/
theorem convert_model_missing_dependency_witness :
    ({ oracleBase with importError := some "No module named tensorflow" }
        : Oracles Nat).importError = some "No module named tensorflow"
    ∧ (convert_model
          { oracleBase with importError := some "No module named tensorflow" }
          { files := [] }
        = (.jsonResp 500
            [("error", .str (missingDepMsg "No module named tensorflow"))], {})
       ∧ ∀ body,
          (convert_model
              { oracleBase with importError := some "No module named tensorflow" }
              { files := [] }).1 ≠ Response.jsonResp 400 body) :=
  ⟨rfl, convert_model_missing_dependency _ _ _ rfl⟩

/-- C1: with dependencies available, a request without the model_json
part gets a 400 naming model_json, and one with model_json but without
weights_bin gets a 400 naming weights_bin; in both cases no scratch
directory is created and no conversion is attempted. -/
theorem convert_model_missing_upload {M : Type} (o : Oracles M) (req : Request)
    (hdep : o.importError = none) :
    (hasFile req "model_json" = false →
       (convert_model o req).1
           = .jsonResp 400 [("error", .str "Missing model_json file")]
       ∧ (convert_model o req).2.tmpDirCreated = false
       ∧ (convert_model o req).2.conversionAttempted = false)
    ∧ (hasFile req "model_json" = true → hasFile req "weights_bin" = false →
       (convert_model o req).1
           = .jsonResp 400 [("error", .str "Missing weights_bin file")]
       ∧ (convert_model o req).2.tmpDirCreated = false
       ∧ (convert_model o req).2.conversionAttempted = false) := by
  constructor
  · intro h1
    simp [convert_model, hdep, h1]
  · intro h1 h2
    simp [convert_model, hdep, h1, h2]

/-- Witness for C1 on both missing-part requests. -/
theorem convert_model_missing_upload_witness :
    (oracleBase.importError = none
     ∧ hasFile reqNoJson "model_json" = false
     ∧ ((convert_model oracleBase reqNoJson).1
           = .jsonResp 400 [("error", .str "Missing model_json file")]
        ∧ (convert_model oracleBase reqNoJson).2.tmpDirCreated = false
        ∧ (convert_model oracleBase reqNoJson).2.conversionAttempted = false))
    ∧ (hasFile reqNoBin "model_json" = true
       ∧ hasFile reqNoBin "weights_bin" = false
       ∧ ((convert_model oracleBase reqNoBin).1
             = .jsonResp 400 [("error", .str "Missing weights_bin file")]
          ∧ (convert_model oracleBase reqNoBin).2.tmpDirCreated = false
          ∧ (convert_model oracleBase reqNoBin).2.conversionAttempted = false)) :=
  ⟨⟨rfl, rfl, (convert_model_missing_upload oracleBase reqNoJson rfl).1 rfl⟩,
   ⟨rfl, rfl, (convert_model_missing_upload oracleBase reqNoBin rfl).2 rfl rfl⟩⟩

/-- C9: the quantization flag is on exactly when the quantize query
parameter is present and its lowercased value is the string true; an
absent parameter or any other value leaves it off. -/
theorem quantizeOf_iff (req : Request) :
    quantizeOf req = true ↔
      ∃ v, argsGet req "quantize" = some v ∧ strLower v = "true" := by
  unfold quantizeOf
  cases h : argsGet req "quantize" with
  | none => simp [h]; decide
  | some v => simp [h]

/-- C7: the health handler always answers 200 with a body whose status
field is ok and which maps each of the two libraries to its detected
version, or to not installed when its import fails. -/
theorem health_reports_versions (env : HealthEnv) :
    ∃ body, health env = .jsonResp 200 body
      ∧ lookupField body "status" = some (.str "ok")
      ∧ lookupField body "tensorflow"
          = some (.str (match env.tfVersion with
                        | some v => v
                        | none => "not installed"))
      ∧ lookupField body "tensorflowjs"
          = some (.str (match env.tfjsVersion with
                        | some v => v
                        | none => "not installed")) := by
  obtain ⟨tf, tfjs⟩ := env
  cases tf <;> cases tfjs <;> exact ⟨_, rfl, rfl, rfl, rfl⟩

/-! Helper lemmas shared by several claim proofs. -/

/-- Dict item assignment followed by lookup of the same key yields the
assigned value. -/
lemma lookupField_setField (fs : List (String × Json)) (k : String) (v : Json) :
    lookupField (setField fs k v) k = some v := by
  induction fs with
  | nil => simp [setField, lookupField]
  | cons p rest ih =>
      obtain ⟨k2, v2⟩ := p
      by_cases h : (k2 == k) = true
      · simp [setField, lookupField, h]
      · simp [setField, lookupField, h, ih]

/-- A successful key lookup makes the membership test of pyContains
succeed on an object. -/
lemma any_eq_true_of_lookupField {fs : List (String × Json)} {k : String}
    {v : Json} (h : lookupField fs k = some v) :
    fs.any (fun p => p.1 == k) = true := by
  induction fs with
  | nil => simp [lookupField] at h
  | cons q rest ih =>
      obtain ⟨k2, v2⟩ := q
      by_cases h2 : (k2 == k) = true
      · simp [h2]
      · rw [lookupField, if_neg h2] at h
        simp only [List.any_cons, h2, Bool.false_or]
        exact ih h

/-- On a list whose elements are all objects, the paths rewrite loop
succeeds and produces the patchOne image of the list. -/
lemma setPathsAll_of_objs {ms : List Json}
    (h : ∀ m ∈ ms, ∃ mf, m = Json.obj mf) :
    setPathsAll ms = .ok (ms.map patchOne) := by
  induction ms with
  | nil => rfl
  | cons m rest ih =>
      obtain ⟨mf, rfl⟩ := h m (List.mem_cons_self m rest)
      have ih2 := ih (fun x hx => h x (List.mem_cons_of_mem _ hx))
      simp [setPathsAll, setPaths, patchOne, ih2]

/-- A model config that is an object with a weightsManifest list of
objects is patched to the same object with every manifest element sent
through patchOne. -/
lemma patchWeightsManifest_obj {fields : List (String × Json)} {ms : List Json}
    (hwm : lookupField fields "weightsManifest" = some (.arr ms))
    (hobjs : ∀ m ∈ ms, ∃ mf, m = Json.obj mf) :
    patchWeightsManifest (.obj fields)
      = .ok (.obj (setField fields "weightsManifest" (.arr (ms.map patchOne)))) := by
  have hc : pyContains (.obj fields) "weightsManifest" = .ok true := by
    simp only [pyContains]
    rw [any_eq_true_of_lookupField hwm]
  simp only [patchWeightsManifest, hc, hwm, setPathsAll_of_objs hobjs]

/-- Whatever the converter configuration recorded by the try body is, it
is the quantize-selected one. -/
lemma tryBody_converterConfig {M : Type} (o : Oracles M) (c : String) (q : Bool) :
    (tryBody o c q).2.converterConfig = none
    ∨ (tryBody o c q).2.converterConfig = some (converterConfigFor q) := by
  unfold tryBody
  cases hA : o.saveJsonExn with
  | some e => simp [hA]
  | none =>
  cases hB : o.saveBinExn with
  | some e => simp [hA, hB]
  | none =>
  cases hC : o.jsonLoads c with
  | error e => simp [hA, hB, hC]
  | ok model_config =>
  cases hD : patchWeightsManifest model_config with
  | error e => simp [hA, hB, hC, hD]
  | ok patched =>
  cases hE : o.loadKerasModel patched with
  | error e => simp [hA, hB, hC, hD, hE]
  | ok model =>
  cases hF : o.convert model (converterConfigFor q) with
  | error e => simp [hA, hB, hC, hD, hE, hF]
  | ok t => simp [hA, hB, hC, hD, hE, hF]

/-- When staging and parsing succeed and the patch succeeds, the try body
stores the patched config in the scratch model.json and invokes the
loader on it, whatever the loader and converter then do. -/
lemma tryBody_savedModelJson {M : Type} (o : Oracles M) (c : String) (q : Bool)
    (j p : Json) (h1 : o.saveJsonExn = none) (h2 : o.saveBinExn = none)
    (h3 : o.jsonLoads c = .ok j) (h4 : patchWeightsManifest j = .ok p) :
    (tryBody o c q).2.savedModelJson = some p
    ∧ (tryBody o c q).2.loadAttempted = true := by
  unfold tryBody
  simp only [h1, h2, h3, h4]
  cases hE : o.loadKerasModel p with
  | error e => simp [hE]
  | ok model =>
  cases hF : o.convert model (converterConfigFor q) with
  | error e => simp [hE, hF]
  | ok t => simp [hE, hF]

/-- The convert handler reads only the file parts and the query
arguments of the request: the form (whose only read field, metadata, is
parsed and then never used) cannot influence the response or the trace. -/
lemma convert_model_form_independent {M : Type} (o : Oracles M)
    (r1 r2 : Request) (hf : r1.files = r2.files) (ha : r1.args = r2.args) :
    convert_model o r1 = convert_model o r2 := by
  simp only [convert_model, hasFile, fileContent, quantizeOf, argsGet,
    dictGet, hf, ha]

/-- In the non-early-return branch, the trace of the handler carries the
body trace of tryBody. -/
lemma convert_model_main_trace {M : Type} (o : Oracles M) (req : Request)
    (hdep : o.importError = none) (hmf : hasFile req "model_json" = true)
    (hwb : hasFile req "weights_bin" = true) :
    (convert_model o req).2.converterConfig
        = (tryBody o (fileContent req "model_json") (quantizeOf req)).2.converterConfig
    ∧ (convert_model o req).2.savedModelJson
        = (tryBody o (fileContent req "model_json") (quantizeOf req)).2.savedModelJson
    ∧ (convert_model o req).2.loadAttempted
        = (tryBody o (fileContent req "model_json") (quantizeOf req)).2.loadAttempted := by
  refine ⟨?_, ?_, ?_⟩ <;> simp [convert_model, hdep, hmf, hwb]

/-- C2: whenever a request configures the converter (and so reaches the
conversion step), the installed configuration is default optimizations
plus float16 supported types exactly when the quantize flag is on, and
the untouched fresh-converter configuration otherwise. -/
theorem convert_model_quantize_config {M : Type} (o : Oracles M)
    (req : Request) (cfg : ConverterConfig)
    (h : (convert_model o req).2.converterConfig = some cfg) :
    cfg = if quantizeOf req then
            { optimizations := [Optimize.DEFAULT]
              supportedTypes := [TfType.float16] }
          else {} := by
  cases hdep : o.importError with
  | some e => simp [convert_model, hdep] at h
  | none =>
  cases hmf : hasFile req "model_json" with
  | false => simp [convert_model, hdep, hmf] at h
  | true =>
  cases hwb : hasFile req "weights_bin" with
  | false => simp [convert_model, hdep, hmf, hwb] at h
  | true =>
  rw [(convert_model_main_trace o req hdep hmf hwb).1] at h
  rcases tryBody_converterConfig o (fileContent req "model_json") (quantizeOf req)
    with h2 | h2 <;> rw [h2] at h
  · exact absurd h (by simp)
  · injection h with h3
    rw [← h3]
    rfl

/-- Witness for C2: the sample request carries quantize equal True, which
case-folds to true, and reaches conversion. -/
theorem convert_model_quantize_config_witness :
    (convert_model oracleBase sampleReq).2.converterConfig
        = some { optimizations := [Optimize.DEFAULT]
                 supportedTypes := [TfType.float16] }
    ∧ ({ optimizations := [Optimize.DEFAULT]
         supportedTypes := [TfType.float16] } : ConverterConfig)
        = if quantizeOf sampleReq then
            { optimizations := [Optimize.DEFAULT]
              supportedTypes := [TfType.float16] }
          else {} :=
  ⟨rfl, convert_model_quantize_config oracleBase sampleReq _ rfl⟩

/-- C4: once past dependency and upload validation, any exception
escaping the staged body (file saves, topology parsing, patching,
loading, conversion) is answered as a 500 whose single error field is
the exception message. -/
theorem convert_model_exception_to_500 {M : Type} (o : Oracles M)
    (req : Request) (e : String) (hdep : o.importError = none)
    (hmf : hasFile req "model_json" = true)
    (hwb : hasFile req "weights_bin" = true)
    (hraise : (tryBody o (fileContent req "model_json") (quantizeOf req)).1
        = .error e) :
    (convert_model o req).1 = .jsonResp 500 [("error", .str e)] := by
  simp [convert_model, hdep, hmf, hwb, hraise]

/-- Witness for C4 with an oracle whose converter raises. -/
theorem convert_model_exception_to_500_witness :
    ({ oracleBase with
         convert := fun _ _ => .error "Conversion failed" } : Oracles Nat).importError
        = none
    ∧ hasFile sampleReq "model_json" = true
    ∧ hasFile sampleReq "weights_bin" = true
    ∧ (tryBody { oracleBase with convert := fun _ _ => .error "Conversion failed" }
          (fileContent sampleReq "model_json") (quantizeOf sampleReq)).1
        = .error "Conversion failed"
    ∧ (convert_model
          { oracleBase with convert := fun _ _ => .error "Conversion failed" }
          sampleReq).1
        = .jsonResp 500 [("error", .str "Conversion failed")] :=
  ⟨rfl, rfl, rfl, rfl,
   convert_model_exception_to_500 _ sampleReq _ rfl rfl rfl rfl⟩

/-- The try body reads only the staging, parsing, loading and conversion
oracles; in particular the rmtree oracle of the finally block cannot
influence it. -/
lemma tryBody_congr {M : Type} (o o2 : Oracles M)
    (hjson : o.jsonLoads = o2.jsonLoads) (hsj : o.saveJsonExn = o2.saveJsonExn)
    (hsb : o.saveBinExn = o2.saveBinExn)
    (hload : o.loadKerasModel = o2.loadKerasModel)
    (hconv : o.convert = o2.convert) (c : String) (q : Bool) :
    tryBody o c q = tryBody o2 c q := by
  unfold tryBody
  rw [hsj, hsb, hjson, hload, hconv]

/-- C3: for every upload whose parsed topology is an object carrying a
weightsManifest list of objects, the handler persists to the scratch
model.json, and hands to the loader, the same object with the paths
entry of every manifest element rewritten to the single-element list
naming weights.bin. -/
theorem convert_model_patches_weights_manifest {M : Type} (o : Oracles M)
    (req : Request) (fields : List (String × Json)) (ms : List Json)
    (hdep : o.importError = none)
    (hmf : hasFile req "model_json" = true)
    (hwb : hasFile req "weights_bin" = true)
    (hs1 : o.saveJsonExn = none) (hs2 : o.saveBinExn = none)
    (hparse : o.jsonLoads (fileContent req "model_json") = .ok (.obj fields))
    (hwm : lookupField fields "weightsManifest" = some (.arr ms))
    (hobjs : ∀ m ∈ ms, ∃ mf, m = Json.obj mf) :
    (convert_model o req).2.savedModelJson
        = some (.obj (setField fields "weightsManifest" (.arr (ms.map patchOne))))
    ∧ (∀ m2 ∈ ms.map patchOne, ∃ mf, m2 = Json.obj mf
          ∧ lookupField mf "paths" = some (.arr [.str "weights.bin"]))
    ∧ (convert_model o req).2.loadAttempted = true := by
  have hpatch := patchWeightsManifest_obj hwm hobjs
  have hsaved := tryBody_savedModelJson o (fileContent req "model_json")
      (quantizeOf req) _ _ hs1 hs2 hparse hpatch
  have htr := convert_model_main_trace o req hdep hmf hwb
  refine ⟨?_, ?_, ?_⟩
  · rw [htr.2.1, hsaved.1]
  · intro m2 hm2
    rw [List.mem_map] at hm2
    obtain ⟨m, hm, rfl⟩ := hm2
    obtain ⟨mf, rfl⟩ := hobjs m hm
    exact ⟨setField mf "paths" (.arr [.str "weights.bin"]), rfl,
      lookupField_setField mf "paths" _⟩
  · rw [htr.2.2, hsaved.2]

/-- Witness for C3 on the sample model with a two-element manifest. -/
theorem convert_model_patches_weights_manifest_witness :
    oracleBase.importError = none
    ∧ hasFile sampleReq "model_json" = true
    ∧ hasFile sampleReq "weights_bin" = true
    ∧ oracleBase.saveJsonExn = none
    ∧ oracleBase.saveBinExn = none
    ∧ oracleBase.jsonLoads (fileContent sampleReq "model_json")
        = .ok (.obj sampleFields)
    ∧ lookupField sampleFields "weightsManifest" = some (.arr sampleManifests)
    ∧ (∀ m ∈ sampleManifests, ∃ mf, m = Json.obj mf)
    ∧ ((convert_model oracleBase sampleReq).2.savedModelJson
          = some (.obj (setField sampleFields "weightsManifest"
              (.arr (sampleManifests.map patchOne))))
       ∧ (∀ m2 ∈ sampleManifests.map patchOne, ∃ mf, m2 = Json.obj mf
             ∧ lookupField mf "paths" = some (.arr [.str "weights.bin"]))
       ∧ (convert_model oracleBase sampleReq).2.loadAttempted = true) := by
  have hobjs : ∀ m ∈ sampleManifests, ∃ mf, m = Json.obj mf := by
    intro m hm
    simp only [sampleManifests, List.mem_cons, List.not_mem_nil, or_false] at hm
    rcases hm with rfl | rfl
    · exact ⟨_, rfl⟩
    · exact ⟨_, rfl⟩
  exact ⟨rfl, rfl, rfl, rfl, rfl, rfl, rfl, hobjs,
    convert_model_patches_weights_manifest oracleBase sampleReq sampleFields
      sampleManifests rfl rfl rfl rfl rfl rfl rfl hobjs⟩

/-- C5: a metadata form field that fails JSON parsing is replaced by the
empty object and the request proceeds exactly as if the field had been
absent: same response, same trace, no metadata error surfaced. -/
theorem convert_model_malformed_metadata {M : Type} (o : Oracles M)
    (req : Request) (e : String)
    (hbad : o.jsonLoads ((formGet req "metadata").getD "\x7b\x7d") = .error e) :
    metadataOf o req = .obj []
    ∧ convert_model o req
        = convert_model o
            { req with form := req.form.filter (fun p => p.1 != "metadata") } := by
  constructor
  · unfold metadataOf
    rw [hbad]
  · exact convert_model_form_independent o _ _ rfl rfl

/-- Witness for C5: the sample request carries metadata that is not
valid JSON. -/
theorem convert_model_malformed_metadata_witness :
    oracleBase.jsonLoads ((formGet sampleReq "metadata").getD "\x7b\x7d")
        = .error "Expecting value: line 1 column 1 (char 0)"
    ∧ (metadataOf oracleBase sampleReq = .obj []
       ∧ convert_model oracleBase sampleReq
           = convert_model oracleBase
               { sampleReq with
                   form := sampleReq.form.filter (fun p => p.1 != "metadata") }) :=
  ⟨rfl, convert_model_malformed_metadata oracleBase sampleReq _ rfl⟩

/-- C6: for every request, the scratch directory does not survive the
handler whenever its removal does not itself raise; removal is attempted
exactly when the directory was created; and a raising removal is
swallowed, leaving the response unchanged (o2 is the same environment
with any other rmtree behaviour). -/
theorem convert_model_scratch_cleanup {M : Type} (o o2 : Oracles M)
    (req : Request) (himp : o.importError = o2.importError)
    (hjson : o.jsonLoads = o2.jsonLoads) (hsj : o.saveJsonExn = o2.saveJsonExn)
    (hsb : o.saveBinExn = o2.saveBinExn)
    (hload : o.loadKerasModel = o2.loadKerasModel)
    (hconv : o.convert = o2.convert) :
    (o.rmtreeRaises = false → (convert_model o req).2.tmpDirPersists = false)
    ∧ (convert_model o req).2.rmtreeAttempted
        = (convert_model o req).2.tmpDirCreated
    ∧ (convert_model o req).1 = (convert_model o2 req).1 := by
  have hbody := tryBody_congr o o2 hjson hsj hsb hload hconv
    (fileContent req "model_json") (quantizeOf req)
  have himp2 : o2.importError = o.importError := himp.symm
  refine ⟨?_, ?_, ?_⟩
  · intro hrm
    cases hdep : o.importError <;>
      cases hmf : hasFile req "model_json" <;>
        cases hwb : hasFile req "weights_bin" <;>
          simp [convert_model, hdep, hmf, hwb, hrm]
  · cases hdep : o.importError <;>
      cases hmf : hasFile req "model_json" <;>
        cases hwb : hasFile req "weights_bin" <;>
          simp [convert_model, hdep, hmf, hwb]
  · cases hdep : o.importError <;>
      cases hmf : hasFile req "model_json" <;>
        cases hwb : hasFile req "weights_bin" <;>
          simp [convert_model, hdep, himp2, hmf, hwb, hbody]

/-- Witness for C6: the base oracle with a succeeding removal versus the
same oracle with a raising removal. -/
theorem convert_model_scratch_cleanup_witness :
    oracleBase.rmtreeRaises = false
    ∧ (convert_model oracleBase sampleReq).2.tmpDirPersists = false
    ∧ (convert_model oracleBase sampleReq).2.rmtreeAttempted
        = (convert_model oracleBase sampleReq).2.tmpDirCreated
    ∧ (convert_model oracleBase sampleReq).1
        = (convert_model { oracleBase with rmtreeRaises := true } sampleReq).1 := by
  have t := convert_model_scratch_cleanup oracleBase
    { oracleBase with rmtreeRaises := true } sampleReq rfl rfl rfl rfl rfl rfl
  exact ⟨rfl, t.1 rfl, t.2.1, t.2.2⟩

/-- C8: two requests with the same file parts and query arguments whose
forms agree outside the metadata field get identical responses and
traces: the parsed metadata influences nothing. -/
theorem convert_model_metadata_noninterference {M : Type} (o : Oracles M)
    (r1 r2 : Request) (hf : r1.files = r2.files) (ha : r1.args = r2.args)
    (_hform : r1.form.filter (fun p => p.1 != "metadata")
        = r2.form.filter (fun p => p.1 != "metadata")) :
    convert_model o r1 = convert_model o r2 :=
  convert_model_form_independent o r1 r2 hf ha

/-- Sample request identical to sampleReq except that its metadata form
field is well-formed JSON. -/
def sampleReqMeta2 : Request where
  files := [("model_json", "SAMPLEMODEL"), ("weights_bin", "BINARY")]
  form := [("metadata", "\x7b\x7d")]
  args := [("quantize", "True")]

/-- Witness for C8: a malformed-metadata request and a well-formed one,
otherwise identical, get the same result. -/
theorem convert_model_metadata_noninterference_witness :
    sampleReq.files = sampleReqMeta2.files
    ∧ sampleReq.args = sampleReqMeta2.args
    ∧ sampleReq.form.filter (fun p => p.1 != "metadata")
        = sampleReqMeta2.form.filter (fun p => p.1 != "metadata")
    ∧ convert_model oracleBase sampleReq
        = convert_model oracleBase sampleReqMeta2 :=
  ⟨rfl, rfl, rfl,
   convert_model_metadata_noninterference oracleBase sampleReq sampleReqMeta2
     rfl rfl rfl⟩

end ConvServer
